import Mathlib

/-!
Verification development for the ibis expression-IR / dialect-compilation core.

The Lean definitions below are shallow embeddings of the Python source under
`src/ibis/`:
  * `expr/datatypes/core.py` — the data-type taxonomy and its predicates,
    the integer `bounds` properties and `Decimal.__init__` validation;
  * `backends/base/sql/registry/literal.py` — the generic literal formatter;
  * `backends/duckdb/registry.py` and `backends/bigquery/registry.py` —
    dialect registries, array-index handling, unit allow-lists;
  * `expr/types/groupby.py` — grouped-table windowing.

Python exceptions are modelled with `Except`; machine integers with `Int`.
-/

namespace Ibis

/-- Python exception kinds raised by the embedded code. -/
inductive PyErr where
  | typeError (msg : String)
  | valueError (msg : String)
  | notImplementedError (msg : String)
  | unsupportedOperationError (msg : String)
  | operationNotDefinedError (msg : String)
  deriving DecidableEq

/-- The Python classes of the data-type taxonomy in
`src/ibis/expr/datatypes/core.py` (mixins that are not `DataType`
subclasses, such as `Singleton`, `Concrete` and `MapSet`, are omitted:
they play no role in the `is_*` kind predicates). -/
inductive PyClass where
  | DataType | Unknown | Primitive | Variadic | Parametric
  | Null | Boolean | Numeric | Integer
  | Str | Binary
  | Temporal | Date | Time | Timestamp
  | SignedInteger | UnsignedInteger | Floating
  | Int8 | Int16 | Int32 | Int64
  | UInt8 | UInt16 | UInt32 | UInt64
  | Float16 | Float32 | Float64
  | Decimal | Interval | Struct | Array | SetT | Map | JSON
  | GeoSpatial | Point | LineString | Polygon
  | MultiLineString | MultiPoint | MultiPolygon
  | UUID | MACADDR | INET
  deriving DecidableEq

/-- Direct base classes, transcribed from the `class ... ( ... )` headers in
`src/ibis/expr/datatypes/core.py` (restricted to `DataType` subclasses). -/
def PyClass.bases : PyClass → List PyClass
  | .DataType => []
  | .Unknown => [.DataType]
  | .Primitive => [.DataType]
  | .Variadic => [.DataType]
  | .Parametric => [.DataType]
  | .Null => [.Primitive]
  | .Boolean => [.Primitive]
  | .Numeric => [.DataType]
  | .Integer => [.Primitive, .Numeric]
  | .Str => [.Variadic]
  | .Binary => [.Variadic]
  | .Temporal => [.DataType]
  | .Date => [.Temporal, .Primitive]
  | .Time => [.Temporal, .Primitive]
  | .Timestamp => [.Temporal, .Parametric]
  | .SignedInteger => [.Integer]
  | .UnsignedInteger => [.Integer]
  | .Floating => [.Primitive, .Numeric]
  | .Int8 => [.SignedInteger]
  | .Int16 => [.SignedInteger]
  | .Int32 => [.SignedInteger]
  | .Int64 => [.SignedInteger]
  | .UInt8 => [.UnsignedInteger]
  | .UInt16 => [.UnsignedInteger]
  | .UInt32 => [.UnsignedInteger]
  | .UInt64 => [.UnsignedInteger]
  | .Float16 => [.Floating]
  | .Float32 => [.Floating]
  | .Float64 => [.Floating]
  | .Decimal => [.Numeric, .Parametric]
  | .Interval => [.Parametric]
  | .Struct => [.Parametric]
  | .Array => [.Variadic, .Parametric]
  | .SetT => [.Variadic, .Parametric]
  | .Map => [.Variadic, .Parametric]
  | .JSON => [.Variadic]
  | .GeoSpatial => [.DataType]
  | .Point => [.GeoSpatial]
  | .LineString => [.GeoSpatial]
  | .Polygon => [.GeoSpatial]
  | .MultiLineString => [.GeoSpatial]
  | .MultiPoint => [.GeoSpatial]
  | .MultiPolygon => [.GeoSpatial]
  | .UUID => [.DataType]
  | .MACADDR => [.Str]
  | .INET => [.Str]

/-- Bounded search for an inheritance path (the class hierarchy has depth
below 8, so fuel 12 is exhaustive). -/
def PyClass.subclassOfAux : Nat → PyClass → PyClass → Bool
  | 0, _, _ => false
  | n + 1, c, d => c = d || (PyClass.bases c).any fun b => PyClass.subclassOfAux n b d

/-- `subclassOf c d` is Python's `issubclass(c, d)` for the taxonomy. -/
def PyClass.subclassOf (c d : PyClass) : Bool :=
  PyClass.subclassOfAux 12 c d

/-- Data-type instances (the instantiable classes of
`src/ibis/expr/datatypes/core.py` with their parameters; `nullable` is
elided because no kind predicate or claim depends on it). -/
inductive DType where
  | Unknown
  | Null
  | Boolean
  | Int8 | Int16 | Int32 | Int64
  | UInt8 | UInt16 | UInt32 | UInt64
  | Float16 | Float32 | Float64
  | Decimal (precision : Option Int) (scale : Option Int)
  | Str
  | Binary
  | Date
  | Time
  | Timestamp (timezone : Option String) (scale : Option Int)
  | Interval (unit : String)
  | Struct (fields : List (String × DType))
  | Array (value_type : DType)
  | SetT (value_type : DType)
  | Map (key_type : DType) (value_type : DType)
  | JSON
  | GeoSpatial (geotype : Option String) (srid : Option Int)
  | Point | LineString | Polygon
  | MultiLineString | MultiPoint | MultiPolygon
  | UUID
  | MACADDR
  | INET

/-- The Python class of a data-type instance. -/
def DType.classOf : DType → PyClass
  | .Unknown => .Unknown
  | .Null => .Null
  | .Boolean => .Boolean
  | .Int8 => .Int8
  | .Int16 => .Int16
  | .Int32 => .Int32
  | .Int64 => .Int64
  | .UInt8 => .UInt8
  | .UInt16 => .UInt16
  | .UInt32 => .UInt32
  | .UInt64 => .UInt64
  | .Float16 => .Float16
  | .Float32 => .Float32
  | .Float64 => .Float64
  | .Decimal _ _ => .Decimal
  | .Str => .Str
  | .Binary => .Binary
  | .Date => .Date
  | .Time => .Time
  | .Timestamp _ _ => .Timestamp
  | .Interval _ => .Interval
  | .Struct _ => .Struct
  | .Array _ => .Array
  | .SetT _ => .SetT
  | .Map _ _ => .Map
  | .JSON => .JSON
  | .GeoSpatial _ _ => .GeoSpatial
  | .Point => .Point
  | .LineString => .LineString
  | .Polygon => .Polygon
  | .MultiLineString => .MultiLineString
  | .MultiPoint => .MultiPoint
  | .MultiPolygon => .MultiPolygon
  | .UUID => .UUID
  | .MACADDR => .MACADDR
  | .INET => .INET

/-- `isinstance(t, c)` for a data-type instance and a taxonomy class. -/
def DType.isinstance (t : DType) (c : PyClass) : Bool :=
  PyClass.subclassOf t.classOf c

/-- `DataType.is_string`: `isinstance(self, String)`. -/
def DType.is_string (t : DType) : Bool := t.isinstance .Str

/-- `DataType.is_inet`: `isinstance(self, INET)`. -/
def DType.is_inet (t : DType) : Bool := t.isinstance .INET

/-- `DataType.is_macaddr`: `isinstance(self, MACADDR)`. -/
def DType.is_macaddr (t : DType) : Bool := t.isinstance .MACADDR

/-- `DataType.is_boolean`: `isinstance(self, Boolean)`. -/
def DType.is_boolean (t : DType) : Bool := t.isinstance .Boolean

/-- `DataType.is_date`: `isinstance(self, Date)`. -/
def DType.is_date (t : DType) : Bool := t.isinstance .Date

/-- `DataType.is_numeric`: `isinstance(self, Numeric)`. -/
def DType.is_numeric (t : DType) : Bool := t.isinstance .Numeric

/-- `DataType.is_timestamp`: `isinstance(self, Timestamp)`. -/
def DType.is_timestamp (t : DType) : Bool := t.isinstance .Timestamp

/-- `DataType.is_interval`: `isinstance(self, Interval)`. -/
def DType.is_interval (t : DType) : Bool := t.isinstance .Interval

/-- `DataType.is_set`: `isinstance(self, Set)`. -/
def DType.is_set (t : DType) : Bool := t.isinstance .SetT

/-- `DataType.is_integer`: `isinstance(self, Integer)`. -/
def DType.is_integer (t : DType) : Bool := t.isinstance .Integer

/-- `DataType.is_signed_integer`: `isinstance(self, SignedInteger)`. -/
def DType.is_signed_integer (t : DType) : Bool := t.isinstance .SignedInteger

/-- `DataType.is_unsigned_integer`: `isinstance(self, UnsignedInteger)`. -/
def DType.is_unsigned_integer (t : DType) : Bool := t.isinstance .UnsignedInteger

/-- `DataType.is_floating`: `isinstance(self, Floating)`. -/
def DType.is_floating (t : DType) : Bool := t.isinstance .Floating

/-- `DataType.is_decimal`: `isinstance(self, Decimal)`. -/
def DType.is_decimal (t : DType) : Bool := t.isinstance .Decimal

/-- `DataType.is_struct`: `isinstance(self, Struct)`. -/
def DType.is_struct (t : DType) : Bool := t.isinstance .Struct

/-- `DataType.is_array`: `isinstance(self, Array)`. -/
def DType.is_array (t : DType) : Bool := t.isinstance .Array

/-- `DataType.is_uuid`: `isinstance(self, UUID)`. -/
def DType.is_uuid (t : DType) : Bool := t.isinstance .UUID

/-- `Decimal.__init__` from `src/ibis/expr/datatypes/core.py` (lines
568-594), restricted to `None`-or-integral parameters (the
`not isinstance(..., numbers.Integral)` `TypeError` branches are
unreachable for such inputs).  The checks run in source order and the
first failing check raises. -/
def decimalCheckScale (precision scale : Option Int) : Except PyErr DType :=
  match scale with
  | some s =>
      if s < 0 then
        .error (.valueError "Decimal type scale cannot be negative")
      else
        match precision with
        | some p =>
            if p < s then
              .error (.valueError
                ("Decimal type precision must be greater than or equal to scale. Got precision="
                  ++ toString p ++ " and scale=" ++ toString s))
            else .ok (.Decimal precision scale)
        | none => .ok (.Decimal precision scale)
  | none => .ok (.Decimal precision scale)

/-- `Decimal.__init__`, first check block (`if precision is not None`):
negative and zero precision raise `ValueError` in that order; then the
scale block runs and on success `super().__init__` creates the value. -/
def decimalInit (precision scale : Option Int) : Except PyErr DType :=
  match precision with
  | some p =>
      if p < 0 then
        .error (.valueError "Decimal type precision cannot be negative")
      else if p = 0 then
        .error (.valueError "Decimal type precision cannot be zero")
      else decimalCheckScale precision scale
  | none => decimalCheckScale precision scale

/-- Python bitwise not on an unbounded integer: `~x = -x - 1`. -/
def pyNot (x : Int) : Int := -x - 1

/-- `Bounds` named tuple from `src/ibis/expr/datatypes/core.py`. -/
structure Bounds where
  lower : Int
  upper : Int
  deriving DecidableEq

/-- `SignedInteger.bounds`: `exp = nbytes * 8 - 1; upper = (1 << exp) - 1;
Bounds(lower=~upper, upper=upper)`. -/
def signedIntegerBounds (nbytes : Nat) : Bounds :=
  let exp := nbytes * 8 - 1
  let upper : Int := ((1 <<< exp : Nat) : Int) - 1
  { lower := pyNot upper, upper := upper }

/-- `UnsignedInteger.bounds`: `exp = nbytes * 8 - 1; upper = 1 << exp;
Bounds(lower=0, upper=upper)`. -/
def unsignedIntegerBounds (nbytes : Nat) : Bounds :=
  let exp := nbytes * 8 - 1
  let upper : Int := ((1 <<< exp : Nat) : Int)
  { lower := 0, upper := upper }

/-- `nbytes` of the concrete integer classes. -/
def DType.nbytes : DType → Option Nat
  | .Int8 => some 1
  | .Int16 => some 2
  | .Int32 => some 4
  | .Int64 => some 8
  | .UInt8 => some 1
  | .UInt16 => some 2
  | .UInt32 => some 4
  | .UInt64 => some 8
  | _ => none

/-- The `bounds` property, dispatched as Python virtual dispatch does:
signed integer types use `SignedInteger.bounds`, unsigned ones
`UnsignedInteger.bounds`. -/
def DType.bounds (t : DType) : Option Bounds :=
  match t.nbytes with
  | none => none
  | some nb =>
      if t.is_signed_integer then some (signedIntegerBounds nb)
      else if t.is_unsigned_integer then some (unsignedIntegerBounds nb)
      else none

/-- A Python float, abstracted to the three-way split the formatters make:
finite (carrying its `repr` text), NaN, or a signed infinity. -/
inductive PyFloat where
  | fin (rep : String)
  | nan
  | posInf
  | negInf
  deriving DecidableEq

/-- A Python `decimal.Decimal`, split the way `_literal` in
`src/ibis/backends/bigquery/registry.py` splits it (`is_nan`,
`is_infinite` with sign, or finite carrying its `str` text). -/
inductive PyDec where
  | fin (rep : String)
  | nan
  | inf (neg : Bool)
  deriving DecidableEq

/-- A Python numeric literal value: an `int` or a `float`. -/
inductive PyNum where
  | int (i : Int)
  | flt (f : PyFloat)
  deriving DecidableEq

/-- Literal payload values.  `date`/`datetime` carry the text their
formatting produces (`strftime("%Y-%m-%d")` respectively `isoformat()`);
`bytes` carries its base64 encoding. -/
inductive PyValue where
  | pybool (b : Bool)
  | num (n : PyNum)
  | str (s : String)
  | date (s : String)
  | datetime (s : String)
  | set (xs : List PyValue)
  | arr (xs : List PyValue)
  | struct (fields : List (String × PyValue))
  | pydict (pairs : List (PyValue × PyValue))
  | dec (d : PyDec)
  | uuidv (s : String)
  | bytes (b64 : String)

/-- `math.isfinite` on a numeric value. -/
def PyNum.isFinite : PyNum → Bool
  | .int _ => true
  | .flt (.fin _) => true
  | .flt _ => false

/-- `math.isnan` on a numeric value. -/
def PyNum.isNan : PyNum → Bool
  | .flt .nan => true
  | _ => false

/-- `value > 0` as used on a non-finite float. -/
def PyNum.posInfinite : PyNum → Bool
  | .flt .posInf => true
  | _ => false

/-- Python `repr` of a numeric value (finite floats carry their repr). -/
def PyNum.pyRepr : PyNum → String
  | .int i => toString i
  | .flt (.fin rep) => rep
  | .flt .nan => "nan"
  | .flt .posInf => "inf"
  | .flt .negInf => "-inf"

/-- Python `str` of a numeric value (same text as `repr` for numbers). -/
def PyNum.pyStr (n : PyNum) : String := n.pyRepr

/-- Python `repr` of a simple string: wrap in single quotes (none of the
strings so formatted in the embedded code need escaping). -/
def pyReprStr (s : String) : String := "\x27" ++ s ++ "\x27"

/-- Python truthiness, to the extent the literal formatters need it. -/
def PyValue.truthy : PyValue → Bool
  | .pybool b => b
  | .num (.int i) => decide (i ≠ 0)
  | .num (.flt (.fin rep)) => decide (rep ≠ "0.0")
  | .num (.flt _) => true
  | .str s => decide (s ≠ "")
  | .set xs => decide (¬ xs.isEmpty)
  | .arr xs => decide (¬ xs.isEmpty)
  | .struct fs => decide (¬ fs.isEmpty)
  | .pydict ps => decide (¬ ps.isEmpty)
  | _ => true

/-- `_boolean_literal_format` from
`src/ibis/backends/base/sql/registry/literal.py`:
`'TRUE' if op.value else 'FALSE'`. -/
def booleanLiteralFormat (v : PyValue) : String :=
  if v.truthy then "TRUE" else "FALSE"

/-- `_string_literal_format`: `"'{}'".format(op.value.replace("'", "\\'"))`. -/
def stringLiteralFormat (s : String) : String :=
  "\x27" ++ (s.replace "\x27" "\\\x27") ++ "\x27"

/-- `_number_literal_format` from
`src/ibis/backends/base/sql/registry/literal.py` (lines 27-40): finite
values render as their `repr`; NaN and the infinities render as a
cast-from-string (`CAST('NaN' AS DOUBLE)` etc.). -/
def numberLiteralFormat (n : PyNum) : String :=
  if n.isFinite then
    n.pyRepr
  else
    let formattedVal :=
      if n.isNan then "NaN"
      else if n.posInfinite then "Infinity"
      else "-Infinity"
    "CAST(" ++ pyReprStr formattedVal ++ " AS DOUBLE)"

/-- Singular resolution name of an interval unit short code.  Modelled
from the spec: `IntervalUnit.singular` lives in `ibis/common/enums.py`,
which is not under `src/`; the spec (section 4.4) only requires units to
be identifiable, and these are the standard unit names. -/
def unitSingular (short : String) : String :=
  if short = "Y" then "year"
  else if short = "Q" then "quarter"
  else if short = "M" then "month"
  else if short = "W" then "week"
  else if short = "D" then "day"
  else if short = "h" then "hour"
  else if short = "m" then "minute"
  else if short = "s" then "second"
  else if short = "ms" then "millisecond"
  else if short = "us" then "microsecond"
  else if short = "ns" then "nanosecond"
  else short

/-- Python class name of a data type, used in error message text. -/
def DType.pyName (t : DType) : String :=
  match t.classOf with
  | .Str => "String"
  | .SetT => "Set"
  | .Unknown => "Unknown"
  | .Null => "Null"
  | .Boolean => "Boolean"
  | .Int8 => "Int8"
  | .Int16 => "Int16"
  | .Int32 => "Int32"
  | .Int64 => "Int64"
  | .UInt8 => "UInt8"
  | .UInt16 => "UInt16"
  | .UInt32 => "UInt32"
  | .UInt64 => "UInt64"
  | .Float16 => "Float16"
  | .Float32 => "Float32"
  | .Float64 => "Float64"
  | .Decimal => "Decimal"
  | .Binary => "Binary"
  | .Date => "Date"
  | .Time => "Time"
  | .Timestamp => "Timestamp"
  | .Interval => "Interval"
  | .Struct => "Struct"
  | .Array => "Array"
  | .Map => "Map"
  | .JSON => "JSON"
  | .GeoSpatial => "GeoSpatial"
  | .Point => "Point"
  | .LineString => "LineString"
  | .Polygon => "Polygon"
  | .MultiLineString => "MultiLineString"
  | .MultiPoint => "MultiPoint"
  | .MultiPolygon => "MultiPolygon"
  | .UUID => "UUID"
  | .MACADDR => "MACADDR"
  | .INET => "INET"
  | _ => "DataType"

/-- A literal operation node: its payload value (`none` is Python `None`)
and its declared output type. -/
structure LitOp where
  value : Option PyValue
  output_dtype : DType

/-- The kind-specific dispatch of `literal` from
`src/ibis/backends/base/sql/registry/literal.py` (lines 82-99), reached
only when `op.value is not None`.  Value shapes a formatter cannot
meaningfully receive from a well-typed literal raise a `TypeError`
(collapsing Python's attribute errors on mismatched payloads). -/
def literalDispatch (v : PyValue) (dtype : DType) : Except PyErr String :=
  if dtype.is_boolean then
    .ok (booleanLiteralFormat v)
  else if dtype.is_string then
    match v with
    | .str s => .ok (stringLiteralFormat s)
    | _ => .error (.typeError "string literal requires a str value")
  else if dtype.is_date then
    match v with
    | .date s => .ok (pyReprStr s)
    | .str s => .ok (pyReprStr s)
    | _ => .error (.typeError "date literal requires a date or str value")
  else if dtype.is_numeric then
    match v with
    | .num n => .ok (numberLiteralFormat n)
    | _ => .error (.typeError "number literal requires a numeric value")
  else if dtype.is_timestamp then
    match v with
    | .datetime s => .ok (pyReprStr s)
    | .str s => .ok (pyReprStr s)
    | _ => .error (.typeError "timestamp literal requires a datetime or str value")
  else if dtype.is_interval then
    match v, dtype with
    | .num (.int i), .Interval unit =>
        .ok ("INTERVAL " ++ toString i ++ " " ++ (unitSingular unit).toUpper)
    | _, _ => .error (.typeError "interval literal requires an integer value")
  else if dtype.is_set then
    match v, dtype with
    | .set xs, .SetT value_type =>
        (do
          let formatted ← xs.attach.mapM fun x => literalDispatch x.1 value_type
          Except.ok ("(" ++ String.intercalate ", " formatted ++ ")"))
    | _, _ => .error (.typeError "set literal requires a set value")
  else
    .error (.notImplementedError ("Unsupported type: " ++ dtype.pyName))
termination_by sizeOf v
decreasing_by
  simp_wf
  have hmem := List.sizeOf_lt_of_mem x.2
  omega

/-- `literal` from `src/ibis/backends/base/sql/registry/literal.py`
(lines 74-99): the `op.value is None` check precedes the kind-specific
dispatch, so a `None` payload renders as `NULL` for every declared
type. -/
def literal (op : LitOp) : Except PyErr String :=
  match op.value with
  | none => .ok "NULL"
  | some v => literalDispatch v op.output_dtype

/-- SQLAlchemy expression constructs produced by the DuckDB `_literal`
rule in `src/ibis/backends/duckdb/registry.py` (the rule returns
expression objects, not text, so the embedding keeps them as a tree):
`sa.null()`, `sa.literal(v)`, a raw Python value passed as a function
argument, `sa.literal_column(text)`, `sa.cast(e, type)`, `sa.func.name(args)`
and the dialect-specific `struct_pack`. -/
inductive SaExpr where
  | saNull
  | lit (v : PyValue)
  | pyval (v : PyValue)
  | litColumn (text : String)
  | cast (e : SaExpr) (ty : String)
  | func (name : String) (args : List SaExpr)
  | structPack (fields : List (String × SaExpr)) (ty : String)

/-- Opaque rendering of `t.get_sqla_type(dtype)` (the SQLAlchemy type
object; its display name is irrelevant to every claim, only its identity
per data type is kept). -/
def duckdbTypeName (t : DType) : String := t.pyName

/-- Field lookup in a struct type's field list (`dtype[key]`). -/
def dlookupD : List (String × DType) → String → Option DType
  | [], _ => none
  | (k, t) :: rest, key => if k = key then some t else dlookupD rest key

/-- `_literal` from `src/ibis/backends/duckdb/registry.py` (lines
106-144).  The `value is None` check precedes all type dispatch; the
non-finite floating branch replaces the value by the strings
`"NaN"` / `"Inf"` / `"-Inf"` before casting.  Value shapes a branch
cannot receive from a well-typed literal collapse to a `TypeError`. -/
def duckdbLiteral (value : Option PyValue) (dtype : DType) : Except PyErr SaExpr :=
  match value with
  | none => .ok .saNull
  | some v =>
    let sqla_type := duckdbTypeName dtype
    if dtype.is_interval then
      match v, dtype with
      | .num n, .Interval unit =>
          .ok (.litColumn ("INTERVAL \x27" ++ n.pyStr ++ " " ++ unitSingular unit ++ "\x27"))
      | _, _ => .error (.typeError "interval literal requires a numeric value")
    else if dtype.is_set || dtype.is_array then
      match v with
      | .set xs => .ok (.cast (.func "list_value" (xs.map SaExpr.pyval)) sqla_type)
      | .arr xs => .ok (.cast (.func "list_value" (xs.map SaExpr.pyval)) sqla_type)
      | _ => .error (.typeError "array literal requires a sequence value")
    else if dtype.is_floating then
      match v with
      | .num n =>
          if ¬ n.isFinite then
            let value' : PyValue :=
              if n.isNan then .str "NaN"
              else .str ((if n.posInfinite then "" else "-") ++ "Inf")
            .ok (.cast (.lit value') sqla_type)
          else .ok (.cast (.lit (.num n)) sqla_type)
      | _ => .error (.typeError "floating literal requires a numeric value")
    else if dtype.is_struct then
      match v, dtype with
      | .struct vfields, .Struct dfields =>
          (do
            let fields ← vfields.attach.mapM fun x =>
              match dlookupD dfields x.1.1 with
              | some ty => do
                  let e ← duckdbLiteral (some x.1.2) ty
                  pure (x.1.1, e)
              | none =>
                  (Except.error (.typeError "KeyError in struct literal")
                    : Except PyErr (String × SaExpr))
            Except.ok (.structPack fields sqla_type))
      | _, _ => .error (.typeError "struct literal requires a mapping value")
    else if dtype.is_string then
      .ok (.lit v)
    else if dtype.isinstance .Map then
      match v with
      | .pydict pairs =>
          .ok (.func "map"
            [.func "list_value" (pairs.map fun p => SaExpr.pyval p.1),
             .func "list_value" (pairs.map fun p => SaExpr.pyval p.2)])
      | _ => .error (.typeError "map literal requires a dict value")
    else
      .ok (.cast (.lit v) sqla_type)
termination_by sizeOf value
decreasing_by
  simp_wf
  rcases x with ⟨⟨a, b⟩, hx⟩
  have hmem := List.sizeOf_lt_of_mem hx
  simp at hmem ⊢
  omega

/-- Opaque rendering of `ibis_type_to_bigquery_type` (module
`ibis/backends/bigquery/datatypes.py`, not under `src/`; only the text's
presence matters to the claims, never its exact spelling). -/
def bigqueryTypeName (t : DType) : String :=
  match t.classOf with
  | .Decimal => "NUMERIC"
  | .Float64 => "FLOAT64"
  | .Float32 => "FLOAT64"
  | .Int64 => "INT64"
  | .Str => "STRING"
  | _ => DType.pyName t

/-- Python `repr` of a list element, as used by `_array_literal_format`
(`str(list(op.value))`); nested containers are not needed by any claim
and render as a placeholder. -/
def pyReprV : PyValue → String
  | .num n => n.pyRepr
  | .str s => pyReprStr s
  | .pybool b => if b then "True" else "False"
  | _ => "<value>"

/-- `_array_literal_format` from `src/ibis/backends/bigquery/registry.py`:
`str(list(op.value))`. -/
def arrayLiteralFormat (xs : List PyValue) : String :=
  "[" ++ String.intercalate ", " (xs.map pyReprV) ++ "]"

/-- `_literal` from `src/ibis/backends/bigquery/registry.py` (lines
233-284).  The `value is None` check precedes all dispatch.  The UUID
branch re-translates `str(value)` as a string literal, which lands in the
generic `literal`; the call is made directly to keep the recursion
structural.  The struct branch iterates the (well-formed) literal's own
fields, looking each field's type up in the struct type, where the source
iterates the type's fields and indexes the value; for a well-typed
struct literal the two traversals coincide. -/
def bigqueryLiteral (value : Option PyValue) (dtype : DType) : Except PyErr String :=
  match value with
  | none => .ok "NULL"
  | some v =>
    if dtype.is_decimal then
      match v with
      | .dec .nan => .ok "CAST(\x27NaN\x27 AS FLOAT64)"
      | .dec (.inf neg) =>
          .ok ("CAST(\x27" ++ (if neg then "-" else "") ++ "inf\x27 AS FLOAT64)")
      | .dec (.fin rep) => .ok (bigqueryTypeName dtype ++ " \x27" ++ rep ++ "\x27")
      | _ => .error (.typeError "decimal literal requires a Decimal value")
    else if dtype.is_uuid then
      match v with
      | .uuidv s => literal { value := some (.str s), output_dtype := .Str }
      | _ => .error (.typeError "uuid literal requires a UUID value")
    else
      let nonFiniteNumeric : Option String :=
        if dtype.is_numeric then
          match v with
          | .num n =>
              if ¬ n.isFinite then
                some ("CAST(" ++ pyReprStr n.pyStr ++ " AS FLOAT64)")
              else none
          | _ => none
        else none
      match nonFiniteNumeric with
      | some r => .ok r
      | none =>
        if dtype.is_date then
          match v with
          | .date s => .ok ("DATE \x27" ++ s ++ "\x27")
          | .str s => .ok ("DATE \x27" ++ s ++ "\x27")
          | _ => .error (.typeError "date literal requires a date or str value")
        else if dtype.is_timestamp then
          match v with
          | .datetime s => .ok ("TIMESTAMP \x27" ++ s ++ "\x27")
          | .str s => .ok ("TIMESTAMP \x27" ++ s ++ "\x27")
          | _ => .error (.typeError "timestamp literal requires a datetime or str value")
        else if dtype.isinstance .Time then
          match v with
          | .str s => .ok ("TIME \x27" ++ s ++ "\x27")
          | _ => .error (.typeError "time literal requires a time value")
        else if dtype.isinstance .Binary then
          match v with
          | .bytes b64 => .ok ("FROM_BASE64(\x27" ++ b64 ++ "\x27)")
          | _ => .error (.typeError "binary literal requires a bytes value")
        else if dtype.is_struct then
          match v, dtype with
          | .struct vfields, .Struct dfields =>
              (do
                let cols ← vfields.attach.mapM fun x =>
                  match dlookupD dfields x.1.1 with
                  | some ty => do
                      let e ← bigqueryLiteral (some x.1.2) ty
                      pure (e ++ " AS " ++ x.1.1)
                  | none =>
                      (Except.error (.typeError "KeyError in struct literal")
                        : Except PyErr String)
                Except.ok ("STRUCT(" ++ String.intercalate ", " cols ++ ")"))
          | _, _ => .error (.typeError "struct literal requires a mapping value")
        else
          match literal { value := some v, output_dtype := dtype } with
          | .ok r => .ok r
          | .error (.notImplementedError _) =>
              if dtype.is_array then
                match v with
                | .arr xs => .ok (arrayLiteralFormat xs)
                | _ => .error (.typeError "array literal requires a list value")
              else
                .error (.notImplementedError ("Unsupported type: " ++ dtype.pyName))
          | .error e => .error e
termination_by sizeOf value
decreasing_by
  simp_wf
  rcases x with ⟨⟨a, b⟩, hx⟩
  have hmem := List.sizeOf_lt_of_mem hx
  simp at hmem ⊢
  omega

/-- Boolean substring test on strings. -/
def strContains (hay needle : String) : Bool :=
  decide (List.IsInfix needle.data hay.data)

/-- IR operation kinds appearing in the dialect registries under
`src/ibis/backends/` (the denylisted kinds of both dialects plus a
sample of registered kinds). -/
inductive OpKind where
  | CumulativeAll | CumulativeAny | CumulativeOp | NTile
  | Translate | ToJSONMap | ToJSONArray
  | FindInSet | DateDiff | TimestampDiff
  | ExtractAuthority | ExtractFile | ExtractFragment | ExtractHost
  | ExtractPath | ExtractProtocol | ExtractQuery | ExtractUserInfo
  | Literal | Cast
  | ArrayIndex | ArrayLength | ArraySlice | ArrayConcat
  | DateTruncate | TimeTruncate | TimestampTruncate
  | DateAdd | DateSub | TimestampAdd | TimestampSub
  | TimestampFromUNIX | StringConcat | Log | Modulus
  deriving DecidableEq

/-- Python spelling of an operation kind, for error messages. -/
def OpKind.pyName : OpKind → String
  | .CumulativeAll => "CumulativeAll"
  | .CumulativeAny => "CumulativeAny"
  | .CumulativeOp => "CumulativeOp"
  | .NTile => "NTile"
  | .Translate => "Translate"
  | .ToJSONMap => "ToJSONMap"
  | .ToJSONArray => "ToJSONArray"
  | .FindInSet => "FindInSet"
  | .DateDiff => "DateDiff"
  | .TimestampDiff => "TimestampDiff"
  | .ExtractAuthority => "ExtractAuthority"
  | .ExtractFile => "ExtractFile"
  | .ExtractFragment => "ExtractFragment"
  | .ExtractHost => "ExtractHost"
  | .ExtractPath => "ExtractPath"
  | .ExtractProtocol => "ExtractProtocol"
  | .ExtractQuery => "ExtractQuery"
  | .ExtractUserInfo => "ExtractUserInfo"
  | .Literal => "Literal"
  | .Cast => "Cast"
  | .ArrayIndex => "ArrayIndex"
  | .ArrayLength => "ArrayLength"
  | .ArraySlice => "ArraySlice"
  | .ArrayConcat => "ArrayConcat"
  | .DateTruncate => "DateTruncate"
  | .TimeTruncate => "TimeTruncate"
  | .TimestampTruncate => "TimestampTruncate"
  | .DateAdd => "DateAdd"
  | .DateSub => "DateSub"
  | .TimestampAdd => "TimestampAdd"
  | .TimestampSub => "TimestampSub"
  | .TimestampFromUNIX => "TimestampFromUNIX"
  | .StringConcat => "StringConcat"
  | .Log => "Log"
  | .Modulus => "Modulus"

/-- A dialect registry: a finite partial map from operation kind to a
translation rule (`dict` semantics). -/
def Registry (α : Type) := OpKind → Option α

/-- Python `dict` update: `{**d, **u}` / `d.update(u)` — entries of `u`
shadow entries of `d`. -/
def dictUpdate {α : Type} (d u : Registry α) : Registry α :=
  fun k => match u k with
    | some v => some v
    | none => d k

/-- The final dict comprehension
`{k: v for k, v in reg.items() if k not in invalid}`. -/
def dictRemoveKeys {α : Type} (d : Registry α) (invalid : List OpKind) : Registry α :=
  fun k => if k ∈ invalid then none else d k

/-- `_invalid_operations` from `src/ibis/backends/duckdb/registry.py`
(lines 424-435). -/
def duckdbInvalidOperations : List OpKind :=
  [.CumulativeAll, .CumulativeAny, .CumulativeOp, .NTile,
   .Translate, .ToJSONMap, .ToJSONArray]

/-- `_invalid_operations` from `src/ibis/backends/bigquery/registry.py`
(lines 724-736). -/
def bigqueryInvalidOperations : List OpKind :=
  [.FindInSet, .DateDiff, .TimestampDiff,
   .ExtractAuthority, .ExtractFile, .ExtractFragment, .ExtractHost,
   .ExtractPath, .ExtractProtocol, .ExtractQuery, .ExtractUserInfo]

/-- The DuckDB registry pipeline from `src/ibis/backends/duckdb/registry.py`:
start from the inherited registry (`base`: the postgres registry minus
the geospatial functions, both defined outside `src/`), overlay the
dialect's own entries (`upd`, the `operation_registry.update({...})`
block), then drop the denylist via the final dict comprehension
(lines 437-439). -/
def duckdbOperationRegistry {α : Type} (base upd : Registry α) : Registry α :=
  dictRemoveKeys (dictUpdate base upd) duckdbInvalidOperations

/-- The BigQuery registry pipeline from
`src/ibis/backends/bigquery/registry.py`: `OPERATION_REGISTRY =
{**operation_registry, ...}` (`base` is the generic registry, defined
outside `src/`; `upd` the explicit entries), then the final dict
comprehension dropping `_invalid_operations` (lines 738-740). -/
def bigqueryOperationRegistry {α : Type} (base upd : Registry α) : Registry α :=
  dictRemoveKeys (dictUpdate base upd) bigqueryInvalidOperations

/-- Modelled from the spec: the translator's rule resolution (section 4.4
of the spec; the translator itself, `ibis/backends/base/sql/compiler`, is
not under `src/`): an exact kind match in the final registry is invoked,
otherwise an `OperationNotDefinedError` naming the dialect and operation
is raised, so no partial text is produced for an unregistered kind. -/
def translateNode (dialect : String) (reg : Registry String) (k : OpKind) :
    Except PyErr String :=
  match reg k with
  | some text => .ok text
  | none =>
      .error (.operationNotDefinedError
        (dialect ++ " has no translation rule for " ++ k.pyName))

/-- SQLAlchemy column-expression constructs built by the DuckDB array
helpers (`src/ibis/backends/duckdb/registry.py` lines 147-152 and the
`ArrayIndex`/`ArraySlice` registry entries). -/
inductive SqlE where
  | num (i : Int)
  | col (name : String)
  | arrayLength (a : SqlE)
  | greatest (a b : SqlE)
  | add (a b : SqlE)
  | negE (a : SqlE)
  | lt (a b : SqlE)
  | ifE (c t e : SqlE)
  | listExtract (a i : SqlE)
  deriving DecidableEq

/-- `_neg_idx_to_pos` from `src/ibis/backends/duckdb/registry.py`
(lines 150-152):
`if_(idx < 0, arg_length + sa.func.greatest(idx, -arg_length), idx)`
with `arg_length = sa.func.array_length(array)`. -/
def duckdbNegIdxToPos (array idx : SqlE) : SqlE :=
  .ifE (.lt idx (.num 0))
    (.add (.arrayLength array) (.greatest idx (.negE (.arrayLength array))))
    idx

/-- Modelled from the spec: the postgres-registry `_array_index` helper
(`ibis/backends/postgres/registry.py`, not under `src/`) that DuckDB
instantiates with `index_converter=_neg_idx_to_pos` and
`func=sa.func.list_extract`: it applies the converter to the translated
index and extracts at the converted (1-based) position. -/
def duckdbArrayIndex (arg idx : SqlE) : SqlE :=
  .listExtract arg (.add (duckdbNegIdxToPos arg idx) (.num 1))

mutual

/-- Integer meaning of a DuckDB array-index expression over an array of
length `len` (`arrayLength` of any subexpression denotes that length). -/
def SqlE.evalI (len : Int) : SqlE → Option Int
  | .num i => some i
  | .col _ => none
  | .arrayLength _ => some len
  | .greatest a b => do
      let x ← a.evalI len
      let y ← b.evalI len
      pure (max x y)
  | .add a b => do
      let x ← a.evalI len
      let y ← b.evalI len
      pure (x + y)
  | .negE a => do
      let x ← a.evalI len
      pure (-x)
  | .lt _ _ => none
  | .ifE c t e => do
      let b ← c.evalB len
      if b then t.evalI len else e.evalI len
  | .listExtract _ _ => none

/-- Boolean meaning of a comparison subexpression. -/
def SqlE.evalB (len : Int) : SqlE → Option Bool
  | .lt a b => do
      let x ← a.evalI len
      let y ← b.evalI len
      pure (decide (x < y))
  | _ => none

end

/-- `_array_index` from `src/ibis/backends/bigquery/registry.py`
(lines 119-123): `f"{arg}[SAFE_OFFSET({index})]"`. -/
def bigqueryArrayIndex (arg index : String) : String :=
  arg ++ "[SAFE_OFFSET(" ++ index ++ ")]"

/-- `_neg_idx_to_pos` from `src/ibis/backends/bigquery/registry.py`
(lines 519-520): `f"IF({idx} < 0, ARRAY_LENGTH({array}) + {idx}, {idx})"`. -/
def bigqueryNegIdxToPos (array idx : String) : String :=
  "IF(" ++ idx ++ " < 0, ARRAY_LENGTH(" ++ array ++ ") + " ++ idx ++ ", " ++ idx ++ ")"

/-- A temporal unit (member of the `DateUnit`/`TimeUnit`/`IntervalUnit`
enums of `ibis/common/enums.py`, which is not under `src/`): its member
name and its short code. -/
structure TUnit where
  name : String
  short : String
  deriving DecidableEq

/-- Python `repr` of a unit enum member
(`<IntervalUnit.NANOSECOND: 'ns'>`). -/
def TUnit.pyRepr (u : TUnit) : String :=
  "<IntervalUnit." ++ u.name ++ ": " ++ pyReprStr u.short ++ ">"

/-- Python `str` of a unit enum member (`IntervalUnit.NANOSECOND`). -/
def TUnit.pyStr (u : TUnit) : String :=
  "IntervalUnit." ++ u.name

/-- The eleven interval units.  Modelled from the spec: the enum members
of `ibis/common/enums.py` (not under `src/`), the standard temporal
units with their usual short codes. -/
def unitYEAR : TUnit := ⟨"YEAR", "Y"⟩

def unitQUARTER : TUnit := ⟨"QUARTER", "Q"⟩

def unitMONTH : TUnit := ⟨"MONTH", "M"⟩

def unitWEEK : TUnit := ⟨"WEEK", "W"⟩

def unitDAY : TUnit := ⟨"DAY", "D"⟩

def unitHOUR : TUnit := ⟨"HOUR", "h"⟩

def unitMINUTE : TUnit := ⟨"MINUTE", "m"⟩

def unitSECOND : TUnit := ⟨"SECOND", "s"⟩

def unitMILLISECOND : TUnit := ⟨"MILLISECOND", "ms"⟩

def unitMICROSECOND : TUnit := ⟨"MICROSECOND", "us"⟩

def unitNANOSECOND : TUnit := ⟨"NANOSECOND", "ns"⟩

/-- All eleven interval units. -/
def intervalUnits : List TUnit :=
  [unitYEAR, unitQUARTER, unitMONTH, unitWEEK, unitDAY, unitHOUR,
   unitMINUTE, unitSECOND, unitMILLISECOND, unitMICROSECOND, unitNANOSECOND]

/-- `_DATE_UNITS | _INTERVAL_DATE_UNITS` as used for `DateTruncate`
(`src/ibis/backends/bigquery/registry.py` lines 563-573 and 607). -/
def bigqueryDateUnits : List TUnit :=
  [unitYEAR, unitQUARTER, unitMONTH, unitWEEK, unitDAY]

/-- `_INTERVAL_TIME_UNITS`: the sub-day interval units BigQuery accepts
for timestamp arithmetic (nanoseconds excluded, lines 563-573). -/
def bigqueryTimeUnits : List TUnit :=
  [unitHOUR, unitMINUTE, unitSECOND, unitMILLISECOND, unitMICROSECOND]

/-- `_truncate` from `src/ibis/backends/bigquery/registry.py` (lines
301-315): units outside the allow-list raise an
`UnsupportedOperationError` whose message embeds the value's type and
`repr(unit)`; `WEEK` maps to `WEEK(MONDAY)`. -/
def bigqueryTruncate (kind : String) (units : List TUnit)
    (argDtypeStr argText : String) (unit : TUnit) : Except PyErr String :=
  if unit ∉ units then
    .error (.unsupportedOperationError
      ("BigQuery does not support truncating " ++ argDtypeStr
        ++ " values to unit " ++ unit.pyRepr))
  else
    let unitName := if unit.name = "WEEK" then "WEEK(MONDAY)" else unit.name
    .ok (kind ++ "_TRUNC(" ++ argText ++ ", " ++ unitName ++ ")")

/-- `_timestamp_op` from `src/ibis/backends/bigquery/registry.py` (lines
318-333): offsets with a unit outside the allow-list raise an
`UnsupportedOperationError` naming the function and `str(unit)` before
any argument is translated. -/
def bigqueryTimestampOp (func : String) (units : List TUnit)
    (argText offsetText : String) (unit : TUnit) : Except PyErr String :=
  if unit ∉ units then
    .error (.unsupportedOperationError
      ("BigQuery does not allow binary operation " ++ func
        ++ " with INTERVAL offset " ++ unit.pyStr))
  else
    .ok (func ++ "(" ++ argText ++ ", " ++ offsetText ++ ")")

/-- `_timestamp_from_unix` from `src/ibis/backends/duckdb/registry.py`
(lines 77-86): only `ms` and `s` are supported; any other unit raises
`UnsupportedOperationError(f"{unit!r} unit is not supported!")`. -/
def duckdbTimestampFromUnix (argText : String) (unit : TUnit) :
    Except PyErr String :=
  if unit.short = "ms" then .ok ("epoch_ms(" ++ argText ++ ")")
  else if unit.short = "s" then .ok ("to_timestamp(" ++ argText ++ ")")
  else .error (.unsupportedOperationError (unit.pyRepr ++ " unit is not supported!"))

/-- Window frame kinds (`RowsWindowFrame` / `RangeWindowFrame`). -/
inductive FrameKind where
  | rows
  | range
  deriving DecidableEq

/-- A window frame node (`ops.RowsWindowFrame` and friends): partition
keys, ordering keys (modelled by column name) and optional row bounds. -/
structure WindowFrame where
  how : FrameKind
  table : Nat
  group_by : List String
  order_by : List String
  start : Option Int := none
  end_ : Option Int := none
  deriving DecidableEq

/-- A `GroupedTable` from `src/ibis/expr/types/groupby.py`: the table,
the grouping keys (`self.by`), the declared ordering (`self._order_by`,
empty when none was declared) and the optional explicit window
(`self._window`). -/
structure GroupedTable where
  table : Nat
  by_ : List String
  order_by : List String
  window : Option WindowFrame

/-- Projected expressions as the grouped-table projection sees them:
plain columns, aggregate-function calls, explicitly windowed
expressions, binary combinations, and named (aliased) expressions. -/
inductive PExpr where
  | column (name : String)
  | aggCall (fn : String) (args : List String)
  | windowed (e : PExpr) (frame : WindowFrame)
  | binop (opName : String) (l r : PExpr)
  | named (aname : String) (e : PExpr)
  deriving DecidableEq

/-- Modelled from the spec: `Annotable.copy` (`ibis/common/grounds.py`,
not under `src/`) on an immutable node rebuilds it with the fields named
by the keyword arguments replaced (spec section 3: nodes are never
mutated in place, every transformation produces a new node); as with any
Python keyword call, a keyword that names no field of the node raises a
`TypeError`. -/
def WindowFrame.copyKw (w : WindowFrame) (kwargs : List (String × List String)) :
    Except PyErr WindowFrame :=
  kwargs.foldlM
    (fun acc kv =>
      if kv.1 = "group_by" then .ok { acc with group_by := kv.2 }
      else if kv.1 = "order_by" then .ok { acc with order_by := kv.2 }
      else .error (.typeError
        ("copy() got an unexpected keyword argument " ++ pyReprStr kv.1)))
    w

/-- `GroupedTable._get_window` from `src/ibis/expr/types/groupby.py`
(lines 236-247).  With no explicit window it builds
`ops.RowsWindowFrame(table=self.table, group_by=self.by,
order_by=self._order_by)`; with an explicit window it calls
`self._window.copy(groupy_by=self._window.group_by + self.by,
order_by=self._window.order_by + self._order_by)` — the first keyword is
spelled `groupy_by` in the source. -/
def getWindow (g : GroupedTable) : Except PyErr WindowFrame :=
  match g.window with
  | none =>
      .ok { how := .rows, table := g.table, group_by := g.by_,
            order_by := g.order_by }
  | some w =>
      w.copyKw
        [("groupy_by", w.group_by ++ g.by_),
         ("order_by", w.order_by ++ g.order_by)]

/-- Modelled from the spec: `an.windowize_function`
(`ibis/expr/analysis.py`, not under `src/`), per spec section 4.3:
"every aggregate-function call in the projected expressions that is not
already explicitly windowed is wrapped with a default frame"; explicitly
windowed expressions are left untouched. -/
def windowizeFunction (frame : WindowFrame) : PExpr → PExpr
  | .column n => .column n
  | .aggCall f args => .windowed (.aggCall f args) frame
  | .windowed e w => .windowed e w
  | .binop o l r => .binop o (windowizeFunction frame l) (windowizeFunction frame r)
  | .named a e => .named a (windowizeFunction frame e)

/-- `GroupedTable._selectables` from `src/ibis/expr/types/groupby.py`
(lines 214-232): fetch the default frame via `_get_window`, then apply
`an.windowize_function(..., frame=default_frame)` to every positional
expression and to every keyword expression (the latter additionally
named with its keyword). -/
def selectables (g : GroupedTable) (exprs : List PExpr)
    (kwexprs : List (String × PExpr)) : Except PyErr (List PExpr) := do
  let default_frame ← getWindow g
  pure (exprs.map (windowizeFunction default_frame)
    ++ kwexprs.map fun kv => .named kv.1 (windowizeFunction default_frame kv.2))

/-- `GroupedTable.over` from `src/ibis/expr/types/groupby.py` (lines
249-292), on the path where an explicit window is passed: a new
`GroupedTable` with the same table, keys and ordering, carrying the
window. -/
def overWindow (g : GroupedTable) (w : WindowFrame) : GroupedTable :=
  { g with window := some w }

/-- The aggregate-function calls of an expression that are not under any
explicit window. -/
def unwindowedAggs : PExpr → List PExpr
  | .column _ => []
  | .aggCall f args => [.aggCall f args]
  | .windowed _ _ => []
  | .binop _ l r => unwindowedAggs l ++ unwindowedAggs r
  | .named _ e => unwindowedAggs e

/-- All window frames attached anywhere in an expression. -/
def framesOf : PExpr → List WindowFrame
  | .column _ => []
  | .aggCall _ _ => []
  | .windowed e w => w :: framesOf e
  | .binop _ l r => framesOf l ++ framesOf r
  | .named _ e => framesOf e

theorem str_data_append (a b : String) : (a ++ b).data = a.data ++ b.data := by
  cases a
  cases b
  rfl

theorem isInfix_mid {α : Type} (s n t : List α) : List.IsInfix n (s ++ n ++ t) :=
  ⟨s, t, rfl⟩

theorem unwindowedAggs_windowize (f : WindowFrame) (e : PExpr) :
    unwindowedAggs (windowizeFunction f e) = [] := by
  induction e <;> simp [windowizeFunction, unwindowedAggs, *]

theorem frames_windowize (f : WindowFrame) (e : PExpr) :
    ∀ fr ∈ framesOf (windowizeFunction f e), fr = f ∨ fr ∈ framesOf e := by
  induction e with
  | column n => simp [windowizeFunction, framesOf]
  | aggCall fn args => simp [windowizeFunction, framesOf]
  | windowed e w ih =>
      intro fr hfr
      simp [windowizeFunction, framesOf] at hfr ⊢
      tauto
  | binop o l r ihl ihr =>
      intro fr hfr
      simp [windowizeFunction, framesOf] at hfr ⊢
      rcases hfr with h | h
      · rcases ihl fr h with h2 | h2 <;> tauto
      · rcases ihr fr h with h2 | h2 <;> tauto
  | named a e ih =>
      intro fr hfr
      simp [windowizeFunction, framesOf] at hfr ⊢
      rcases ih fr hfr with h2 | h2 <;> tauto

/-- C1 (amended): for integer parameters, `Decimal` construction fails
by raising in `__init__` — before any `Decimal` value exists — whenever
`precision < 0`, `precision == 0`, `scale < 0` or `scale > precision`;
the error raised for these violations is a `ValueError` (a `TypeError`
is reserved for non-integral parameters), and construction succeeds
exactly when `precision ≥ 1` and `precision ≥ scale ≥ 0`. -/
theorem decimal_init_validation (p s : Int) :
    (p < 0 → decimalInit (some p) (some s)
        = .error (.valueError "Decimal type precision cannot be negative"))
    ∧ (p = 0 → decimalInit (some p) (some s)
        = .error (.valueError "Decimal type precision cannot be zero"))
    ∧ (0 < p → s < 0 → decimalInit (some p) (some s)
        = .error (.valueError "Decimal type scale cannot be negative"))
    ∧ (0 < p → 0 ≤ s → p < s → decimalInit (some p) (some s)
        = .error (.valueError
            ("Decimal type precision must be greater than or equal to scale. Got precision="
              ++ toString p ++ " and scale=" ++ toString s)))
    ∧ (0 < p → 0 ≤ s → s ≤ p → decimalInit (some p) (some s)
        = .ok (.Decimal (some p) (some s))) := by
  refine ⟨fun h => ?_, fun h => ?_, fun h1 h2 => ?_, fun h1 h2 h3 => ?_,
    fun h1 h2 h3 => ?_⟩
  · simp [decimalInit, h]
  · simp [decimalInit, h]
  · simp [decimalInit, decimalCheckScale, h2,
      show ¬ p < 0 by omega, show ¬ p = 0 by omega]
  · simp [decimalInit, decimalCheckScale, h3,
      show ¬ p < 0 by omega, show ¬ p = 0 by omega, show ¬ s < 0 by omega]
  · simp [decimalInit, decimalCheckScale,
      show ¬ p < 0 by omega, show ¬ p = 0 by omega, show ¬ s < 0 by omega,
      show ¬ p < s by omega]

/-- C1 counterexample: the claim asserts construction succeeds whenever
`precision ≥ scale ≥ 0`, yet `Decimal(0, 0)` raises; and it asserts the
failures are type errors, yet `Decimal(1, 2)` (scale > precision) raises
a `ValueError`. -/
theorem decimal_init_claim_counterexample :
    decimalInit (some 0) (some 0)
      = .error (.valueError "Decimal type precision cannot be zero")
    ∧ decimalInit (some 1) (some 2)
      = .error (.valueError
          "Decimal type precision must be greater than or equal to scale. Got precision=1 and scale=2") := by
  exact ⟨rfl, rfl⟩

/-- Witness for `decimal_init_validation` at concrete parameters. -/
theorem decimal_init_validation_witness :
    decimalInit (some (-1)) (some 0)
      = .error (.valueError "Decimal type precision cannot be negative")
    ∧ decimalInit (some 10) (some 2) = .ok (.Decimal (some 10) (some 2)) :=
  ⟨(decimal_init_validation (-1) 0).1 (by decide),
   (decimal_init_validation 10 2).2.2.2.2 (by decide) (by decide) (by decide)⟩

/-- C2 (confirmed): the generic number formatter renders NaN and the two
infinities as the cast-from-string idiom (never the bare token), and
every finite value as its plain `repr`; a `float("nan")` literal of type
float64 compiles to exactly `CAST('NaN' AS DOUBLE)`, and the DuckDB
literal rule likewise casts the strings `"NaN"`/`"Inf"`/`"-Inf"` instead
of emitting a bare non-finite numeric literal. -/
theorem number_literal_nonfinite_cast :
    numberLiteralFormat (.flt .nan) = "CAST(\x27NaN\x27 AS DOUBLE)"
    ∧ numberLiteralFormat (.flt .posInf) = "CAST(\x27Infinity\x27 AS DOUBLE)"
    ∧ numberLiteralFormat (.flt .negInf) = "CAST(\x27-Infinity\x27 AS DOUBLE)"
    ∧ (∀ n : PyNum, n.isFinite = true → numberLiteralFormat n = n.pyRepr)
    ∧ numberLiteralFormat (.flt .nan) ≠ "NaN"
    ∧ numberLiteralFormat (.flt .posInf) ≠ "Infinity"
    ∧ numberLiteralFormat (.flt .negInf) ≠ "-Infinity"
    ∧ literal { value := some (.num (.flt .nan)), output_dtype := .Float64 }
        = .ok "CAST(\x27NaN\x27 AS DOUBLE)"
    ∧ duckdbLiteral (some (.num (.flt .nan))) .Float64
        = .ok (.cast (.lit (.str "NaN")) (duckdbTypeName .Float64))
    ∧ duckdbLiteral (some (.num (.flt .negInf))) .Float64
        = .ok (.cast (.lit (.str "-Inf")) (duckdbTypeName .Float64))
    ∧ ∀ rep : String, duckdbLiteral (some (.num (.flt (.fin rep)))) .Float64
        = .ok (.cast (.lit (.num (.flt (.fin rep)))) (duckdbTypeName .Float64)) := by
  refine ⟨rfl, rfl, rfl, ?_, by decide, by decide, by decide, ?_, ?_, ?_, ?_⟩
  · intro n h
    simp [numberLiteralFormat, h]
  · simp [literal, literalDispatch]
    rfl
  · simp [duckdbLiteral]
    rfl
  · simp [duckdbLiteral]
    rfl
  · intro rep
    simp [duckdbLiteral]
    rfl

/-- Witness for the finite-value conjunct of
`number_literal_nonfinite_cast` at a concrete finite number. -/
theorem number_literal_nonfinite_cast_witness :
    numberLiteralFormat (PyNum.int 42) = (PyNum.int 42).pyRepr :=
  number_literal_nonfinite_cast.2.2.2.1 (PyNum.int 42) (by decide)

/-- C8 counterexample: `INET` and `MACADDR` are subclasses of `String`
in `src/ibis/expr/datatypes/core.py`, so `is_string()` returns `True`
for them, contradicting the claim that it returns `False`. -/
theorem inet_is_string_counterexample :
    DType.is_string .INET = true ∧ DType.is_string .MACADDR = true := by
  decide

/-- C8 (amended): `INET` and `MACADDR` are string kinds — they inherit
from `String` — so `is_string()` returns `True` exactly for the
`String`, `MACADDR` and `INET` kinds (and `is_inet`/`is_macaddr` single
them out). -/
theorem is_string_taxonomy (t : DType) :
    (DType.is_string t = true
      ↔ (t.classOf = .Str ∨ t.classOf = .MACADDR ∨ t.classOf = .INET))
    ∧ (DType.is_inet t = true ↔ t.classOf = .INET)
    ∧ (DType.is_macaddr t = true ↔ t.classOf = .MACADDR) := by
  cases t <;>
    simp only [DType.is_string, DType.is_inet, DType.is_macaddr,
      DType.isinstance, DType.classOf] <;>
    decide

/-- C10 (confirmed): unsigned integer bounds are
`(0, 2^(8*nbytes - 1))` — e.g. `UInt8().bounds.upper == 128`, half of
`2^(8*nbytes)` rather than the maximum representable value — and signed
integer bounds are `(-2^(8*nbytes-1), 2^(8*nbytes-1) - 1)`. -/
theorem integer_bounds_claim :
    (∀ nb : Nat, unsignedIntegerBounds nb
        = { lower := 0, upper := (2 : Int) ^ (nb * 8 - 1) })
    ∧ (∀ nb : Nat, signedIntegerBounds nb
        = { lower := -((2 : Int) ^ (nb * 8 - 1)),
            upper := (2 : Int) ^ (nb * 8 - 1) - 1 })
    ∧ DType.bounds .UInt8 = some { lower := 0, upper := 128 }
    ∧ DType.bounds .UInt16 = some { lower := 0, upper := 32768 }
    ∧ DType.bounds .UInt32 = some { lower := 0, upper := 2147483648 }
    ∧ DType.bounds .UInt64 = some { lower := 0, upper := 9223372036854775808 }
    ∧ DType.bounds .Int8 = some { lower := -128, upper := 127 }
    ∧ DType.bounds .Int16 = some { lower := -32768, upper := 32767 }
    ∧ DType.bounds .Int32 = some { lower := -2147483648, upper := 2147483647 }
    ∧ DType.bounds .Int64
        = some { lower := -9223372036854775808, upper := 9223372036854775807 } := by
  refine ⟨?_, ?_, by decide, by decide, by decide, by decide, by decide,
    by decide, by decide, by decide⟩
  · intro nb
    simp [unsignedIntegerBounds, Nat.shiftLeft_eq]
  · intro nb
    simp [signedIntegerBounds, pyNot, Nat.shiftLeft_eq]

/-- C3 (confirmed): whatever the inherited base registry and the
dialect's own overlay contain, the final dict comprehension removes
every denylisted operation, so the final registry has no rule for it and
rule resolution raises an `OperationNotDefinedError` — producing no
partial text — for any expression containing it. -/
theorem denylist_enforcement {α : Type} (base upd : Registry α)
    (baseT updT : Registry String) (k : OpKind) :
    (k ∈ duckdbInvalidOperations →
      duckdbOperationRegistry base upd k = none
      ∧ translateNode "duckdb" (duckdbOperationRegistry baseT updT) k
          = .error (.operationNotDefinedError
              ("duckdb has no translation rule for " ++ k.pyName)))
    ∧ (k ∈ bigqueryInvalidOperations →
      bigqueryOperationRegistry base upd k = none
      ∧ translateNode "bigquery" (bigqueryOperationRegistry baseT updT) k
          = .error (.operationNotDefinedError
              ("bigquery has no translation rule for " ++ k.pyName))) := by
  constructor <;> intro h <;>
    simp [duckdbOperationRegistry, bigqueryOperationRegistry, dictRemoveKeys,
      translateNode, h]

/-- Witness for `denylist_enforcement`: `NTile` is absent from the final
DuckDB registry and `FindInSet` from the final BigQuery registry, for
empty base and overlay. -/
theorem denylist_enforcement_witness :
    duckdbOperationRegistry (fun _ => (none : Option String)) (fun _ => none)
      .NTile = none
    ∧ bigqueryOperationRegistry (fun _ => (none : Option String)) (fun _ => none)
      .FindInSet = none :=
  ⟨((denylist_enforcement (fun _ => (none : Option String)) (fun _ => none)
      (fun _ => none) (fun _ => none) .NTile).1 (by decide)).1,
   ((denylist_enforcement (fun _ => (none : Option String)) (fun _ => none)
      (fun _ => none) (fun _ => none) .FindInSet).2 (by decide)).1⟩

/-- C4 (amended): DuckDB's `ArrayIndex` normalizes a negative index
inline via `length + index` arithmetic — its converter evaluates to
`length + (-1)` for index `-1` on any array of length at least 1, to
`length + i` for any in-range negative `i`, and leaves non-negative
indices unchanged.  BigQuery normalizes only array *slices* that way;
its `ArrayIndex` emits `arg[SAFE_OFFSET(index)]` with no length
arithmetic. -/
theorem array_index_negative_normalization (L : Int) (hL : 1 ≤ L) :
    SqlE.evalI L (duckdbNegIdxToPos (.col "t0.a") (.num (-1))) = some (L + (-1))
    ∧ (∀ i : Int, i < 0 → -L ≤ i →
        SqlE.evalI L (duckdbNegIdxToPos (.col "t0.a") (.num i)) = some (L + i))
    ∧ (∀ i : Int, 0 ≤ i →
        SqlE.evalI L (duckdbNegIdxToPos (.col "t0.a") (.num i)) = some i)
    ∧ bigqueryNegIdxToPos "a" "-1" = "IF(-1 < 0, ARRAY_LENGTH(a) + -1, -1)"
    ∧ bigqueryArrayIndex "a" "-1" = "a[SAFE_OFFSET(-1)]"
    ∧ strContains (bigqueryArrayIndex "a" "-1") "ARRAY_LENGTH" = false := by
  refine ⟨?_, ?_, ?_, rfl, rfl, by decide⟩
  · simp [duckdbNegIdxToPos, SqlE.evalI, SqlE.evalB]
    omega
  · intro i h1 h2
    simp [duckdbNegIdxToPos, SqlE.evalI, SqlE.evalB, h1]
    omega
  · intro i h1
    simp [duckdbNegIdxToPos, SqlE.evalI, SqlE.evalB, show ¬ i < 0 by omega]

/-- C4 counterexample: for BigQuery — a dialect whose arrays reject
negative offsets — `ArrayIndex` on index `-1` compiles to
`a[SAFE_OFFSET(-1)]`, containing no `length + (-1)` normalization (no
`ARRAY_LENGTH`, no addition at all), contradicting the claim that every
such `ArrayIndex` is normalized inline. -/
theorem bigquery_array_index_counterexample :
    bigqueryArrayIndex "a" "-1" = "a[SAFE_OFFSET(-1)]"
    ∧ strContains "a[SAFE_OFFSET(-1)]" "ARRAY_LENGTH" = false
    ∧ strContains "a[SAFE_OFFSET(-1)]" "+" = false := by
  refine ⟨rfl, by decide, by decide⟩

/-- Witness for `array_index_negative_normalization` at length 3. -/
theorem array_index_negative_normalization_witness :
    SqlE.evalI 3 (duckdbNegIdxToPos (.col "t0.a") (.num (-1))) = some (3 + (-1))
    ∧ SqlE.evalI 3 (duckdbNegIdxToPos (.col "t0.a") (.num (-2))) = some (3 + (-2)) :=
  ⟨(array_index_negative_normalization 3 (by decide)).1,
   (array_index_negative_normalization 3 (by decide)).2.1 (-2) (by decide) (by decide)⟩

/-- C6 (amended): a truncation or interval unit outside the dialect's
allow-list raises a non-retryable `UnsupportedOperationError`; both
BigQuery messages name the dialect and the unit, while DuckDB's
`TimestampFromUNIX` message names only the unit, not the dialect. -/
theorem unit_allowlist_errors :
    (∀ (kind : String) (units : List TUnit) (dstr atext : String) (u : TUnit),
      u ∉ units →
        bigqueryTruncate kind units dstr atext u
          = .error (.unsupportedOperationError
              ("BigQuery does not support truncating " ++ dstr
                ++ " values to unit " ++ u.pyRepr))
        ∧ List.IsInfix "BigQuery".data
            ("BigQuery does not support truncating " ++ dstr
              ++ " values to unit " ++ u.pyRepr).data
        ∧ List.IsInfix u.pyRepr.data
            ("BigQuery does not support truncating " ++ dstr
              ++ " values to unit " ++ u.pyRepr).data)
    ∧ (∀ (func : String) (units : List TUnit) (atext otext : String) (u : TUnit),
      u ∉ units →
        bigqueryTimestampOp func units atext otext u
          = .error (.unsupportedOperationError
              ("BigQuery does not allow binary operation " ++ func
                ++ " with INTERVAL offset " ++ u.pyStr))
        ∧ List.IsInfix "BigQuery".data
            ("BigQuery does not allow binary operation " ++ func
              ++ " with INTERVAL offset " ++ u.pyStr).data
        ∧ List.IsInfix u.pyStr.data
            ("BigQuery does not allow binary operation " ++ func
              ++ " with INTERVAL offset " ++ u.pyStr).data)
    ∧ (∀ (atext : String) (u : TUnit), u ∈ intervalUnits →
        u.short ≠ "ms" → u.short ≠ "s" →
        duckdbTimestampFromUnix atext u
          = .error (.unsupportedOperationError (u.pyRepr ++ " unit is not supported!"))
        ∧ List.IsInfix u.pyRepr.data (u.pyRepr ++ " unit is not supported!").data
        ∧ ¬ List.IsInfix "DuckDB".data (u.pyRepr ++ " unit is not supported!").data
        ∧ ¬ List.IsInfix "duckdb".data (u.pyRepr ++ " unit is not supported!").data) := by
  refine ⟨?_, ?_, ?_⟩
  · intro kind units dstr atext u hu
    refine ⟨by simp [bigqueryTruncate, hu], ?_, ?_⟩
    · have hsplit : ("BigQuery does not support truncating ").data
          = "BigQuery".data ++ " does not support truncating ".data := by decide
      simp only [str_data_append, hsplit, List.append_assoc]
      exact ⟨[], _, rfl⟩
    · simp only [str_data_append]
      exact ⟨"BigQuery does not support truncating ".data ++ dstr.data
          ++ " values to unit ".data, [],
        by simp [List.append_assoc]⟩
  · intro func units atext otext u hu
    refine ⟨by simp [bigqueryTimestampOp, hu], ?_, ?_⟩
    · have hsplit : ("BigQuery does not allow binary operation ").data
          = "BigQuery".data ++ " does not allow binary operation ".data := by decide
      simp only [str_data_append, hsplit, List.append_assoc]
      exact ⟨[], _, rfl⟩
    · simp only [str_data_append]
      exact ⟨"BigQuery does not allow binary operation ".data ++ func.data
          ++ " with INTERVAL offset ".data, [],
        by simp [List.append_assoc]⟩
  · intro atext u hu h1 h2
    fin_cases hu <;>
      first
      | exact absurd rfl h1
      | exact absurd rfl h2
      | exact ⟨rfl, by decide, by decide, by decide⟩

/-- C6 counterexample: compiling `TimestampFromUNIX` on DuckDB with the
unsupported nanosecond unit raises a message that names the unit but not
the dialect — neither `DuckDB` nor `duckdb` occurs in it — contradicting
the claim that the message names both. -/
theorem duckdb_unit_error_counterexample :
    duckdbTimestampFromUnix "arg" unitNANOSECOND
      = .error (.unsupportedOperationError
          "<IntervalUnit.NANOSECOND: \x27ns\x27> unit is not supported!")
    ∧ strContains "<IntervalUnit.NANOSECOND: \x27ns\x27> unit is not supported!"
        "DuckDB" = false
    ∧ strContains "<IntervalUnit.NANOSECOND: \x27ns\x27> unit is not supported!"
        "duckdb" = false := by
  refine ⟨rfl, by decide, by decide⟩

/-- Witness for `unit_allowlist_errors` at concrete units and texts. -/
theorem unit_allowlist_errors_witness :
    bigqueryTruncate "DATE" bigqueryDateUnits "date" "t0.d" unitHOUR
      = .error (.unsupportedOperationError
          ("BigQuery does not support truncating " ++ "date"
            ++ " values to unit " ++ unitHOUR.pyRepr))
    ∧ duckdbTimestampFromUnix "t0.x" unitNANOSECOND
      = .error (.unsupportedOperationError
          (unitNANOSECOND.pyRepr ++ " unit is not supported!")) :=
  ⟨(unit_allowlist_errors.1 "DATE" bigqueryDateUnits "date" "t0.d" unitHOUR
      (by decide)).1,
   (unit_allowlist_errors.2.2 "t0.x" unitNANOSECOND (by decide) (by decide)
      (by decide)).1⟩

/-- C5 (confirmed): projecting from a grouped table with no explicit
window builds the default frame `RowsWindowFrame(table, group_by=by,
order_by=_order_by)` — `ROWS` semantics, partition keys = the grouping
keys, ordering = the declared ordering (empty when none) — and
windowizes every projected expression with it: afterwards no aggregate
call is left unwindowed, and every frame is either the default frame or
one that was already explicitly attached in the input. -/
theorem grouped_projection_default_frame (g : GroupedTable) (exprs : List PExpr)
    (kwexprs : List (String × PExpr)) (h : g.window = none) :
    ∃ df : WindowFrame,
      getWindow g = .ok df
      ∧ df = { how := .rows, table := g.table, group_by := g.by_,
               order_by := g.order_by }
      ∧ selectables g exprs kwexprs
          = .ok (exprs.map (windowizeFunction df)
              ++ kwexprs.map fun kv => PExpr.named kv.1 (windowizeFunction df kv.2))
      ∧ (∀ e ∈ exprs, unwindowedAggs (windowizeFunction df e) = [])
      ∧ (∀ e ∈ exprs, ∀ fr ∈ framesOf (windowizeFunction df e),
          fr = df ∨ fr ∈ framesOf e) := by
  refine ⟨_, ?_, rfl, ?_, ?_, ?_⟩
  · simp [getWindow, h]
  · simp [selectables, getWindow, h]
  · intro e _
    exact unwindowedAggs_windowize _ e
  · intro e _ fr hfr
    exact frames_windowize _ e fr hfr

/-- Witness for `grouped_projection_default_frame` on a concrete grouped
table and projection list. -/
theorem grouped_projection_default_frame_witness :
    ∃ df : WindowFrame,
      getWindow { table := 0, by_ := ["k"], order_by := [], window := none } = .ok df
      ∧ df = { how := .rows, table := 0, group_by := ["k"], order_by := [] }
      ∧ selectables { table := 0, by_ := ["k"], order_by := [], window := none }
            [PExpr.aggCall "sum" ["x"], PExpr.column "y"]
            [("m", PExpr.aggCall "mean" ["z"])]
          = .ok ([PExpr.aggCall "sum" ["x"], PExpr.column "y"].map
                (windowizeFunction df)
              ++ [("m", PExpr.aggCall "mean" ["z"])].map
                fun kv => PExpr.named kv.1 (windowizeFunction df kv.2))
      ∧ (∀ e ∈ [PExpr.aggCall "sum" ["x"], PExpr.column "y"],
          unwindowedAggs (windowizeFunction df e) = [])
      ∧ (∀ e ∈ [PExpr.aggCall "sum" ["x"], PExpr.column "y"],
          ∀ fr ∈ framesOf (windowizeFunction df e), fr = df ∨ fr ∈ framesOf e) :=
  grouped_projection_default_frame
    { table := 0, by_ := ["k"], order_by := [], window := none }
    [PExpr.aggCall "sum" ["x"], PExpr.column "y"]
    [("m", PExpr.aggCall "mean" ["z"])] rfl

/-- C7 (confirmed): a literal whose payload is `None` renders as the
dialect's null token — `NULL` for the generic and BigQuery formatters,
`sa.null()` for DuckDB — for every declared type, because the `None`
check precedes the kind dispatch; a type with no kind-specific formatter
(e.g. `Struct` in the generic formatter) raises for non-null values yet
still renders `NULL` for a `None` payload. -/
theorem literal_none_renders_null :
    (∀ dtype : DType, literal { value := none, output_dtype := dtype } = .ok "NULL")
    ∧ (∀ dtype : DType, bigqueryLiteral none dtype = .ok "NULL")
    ∧ (∀ dtype : DType, duckdbLiteral none dtype = .ok .saNull)
    ∧ literal { value := some (.struct []), output_dtype := .Struct [] }
        = .error (.notImplementedError "Unsupported type: Struct")
    ∧ literal { value := none, output_dtype := .Struct [] } = .ok "NULL"
    ∧ literal { value := none, output_dtype := .JSON } = .ok "NULL" := by
  refine ⟨fun _ => rfl, ?_, ?_, ?_, rfl, rfl⟩
  · intro dtype
    simp [bigqueryLiteral]
  · intro dtype
    simp [duckdbLiteral]
  · simp [literal, literalDispatch]
    rfl

/-- C9 (code bug): `GroupedTable._get_window` merges an explicit window
by calling `self._window.copy(groupy_by=..., order_by=...)`; the keyword
`groupy_by` is a typo of `group_by` (the adjacent `order_by` keyword is
spelled correctly), so instead of the merged frame the call fails with a
`TypeError` for the unknown keyword and the `group_by` merge never
happens. -/
theorem grouped_over_window_merge_bug :
    getWindow (overWindow
        { table := 0, by_ := ["b"], order_by := ["o2"], window := none }
        { how := .rows, table := 0, group_by := ["g"], order_by := ["o1"] })
      = .error (.typeError
          "copy() got an unexpected keyword argument \x27groupy_by\x27") := by
  rfl

end Ibis
